import Mathlib

/-!
Shallow embedding of the trust-monitoring and consensus-gating core of the
mcp-payment-sim repository (consensus.py, database.py, main.py).  Python
floats are modelled as rationals; Python `round(x, k)` is modelled by
round-half-up on rationals (no value in this development sits at a half-way
point, where the two conventions differ).
-/

namespace PaymentSim

/-- Rounds a rational to 2 decimal places, modelling Python `round(x, 2)`. -/
def roundTo2 (q : ℚ) : ℚ := (round (100 * q) : ℚ) / 100

/-- Rounds a rational to 1 decimal place, modelling Python `round(x, 1)`. -/
def roundTo1 (q : ℚ) : ℚ := (round (10 * q) : ℚ) / 10

/-- Prefix test on character lists (helper for the substring test below). -/
def leadsL : List Char → List Char → Bool
  | [], _ => true
  | _ :: _, [] => false
  | a :: as, b :: bs => a == b && leadsL as bs

/-- Substring occurrence on character lists. -/
def containsSub (pat : List Char) : List Char → Bool
  | [] => leadsL pat []
  | c :: rest => leadsL pat (c :: rest) || containsSub pat rest

/-- Models the Python expression `pat in s` on strings. -/
def strContains (s pat : String) : Bool := containsSub pat.data s.data

/-- ASCII lower-casing of one character, modelling `str.lower()` on the
ASCII merchant names appearing in this system. -/
def lowerChar (c : Char) : Char :=
  if 65 ≤ c.toNat ∧ c.toNat ≤ 90 then Char.ofNat (c.toNat + 32) else c

/-- Models Python `s.lower()` (ASCII range). -/
def lowerStr (s : String) : String := ⟨s.data.map lowerChar⟩

/-- Whitespace test used by `strip`. -/
def isSpaceCh (c : Char) : Bool := c == ' ' || c == '\t' || c == '\n' || c == '\r'

/-- Drops leading whitespace from a character list. -/
def stripL : List Char → List Char
  | [] => []
  | c :: r => if isSpaceCh c then stripL r else c :: r

/-- Models Python `s.strip()`. -/
def strip (s : String) : String := ⟨(stripL ((stripL s.data).reverse)).reverse⟩

/-- Deterministic stand-in for Python's per-process string hash used only in
the transaction-id derivation; nothing downstream reads the id's value. -/
def strHashN (l : List Char) : ℕ := l.foldl (fun h c => (h * 31 + c.toNat) % 100000000) 7

/-- Left-pads a numeral with zeros to 8 digits, modelling the `:08d` format. -/
def pad8 (n : ℕ) : String :=
  let s := toString n
  String.mk (List.replicate (8 - s.length) '0') ++ s

/-- Left-pads a numeral with zeros to 4 digits, modelling the `:04d` format. -/
def pad4 (n : ℕ) : String :=
  let s := toString n
  String.mk (List.replicate (4 - s.length) '0') ++ s

/-- Formats a rational with two decimals, modelling the `:.2f` format. -/
def fmt2 (q : ℚ) : String :=
  let c : ℤ := round (100 * q)
  let n := c.natAbs
  (if c < 0 then "-" else "") ++ toString (n / 100) ++ "." ++
    (if n % 100 < 10 then "0" else "") ++ toString (n % 100)

/-- An agent of the static roster (consensus.py `agents`); only the id is
read by the voting and integrity logic. -/
structure Agent where
  id : String
deriving DecidableEq

/-- One agent's vote (consensus.py `Vote`). -/
structure Vote where
  agent_id : String
  vote : String
  reason : String
deriving DecidableEq

/-- Result of a consensus simulation (consensus.py `ConsensusResult`). -/
structure ConsensusResult where
  transaction_id : String
  status : String
  votes : List Vote
  approval_rate : ℚ
  required_threshold : ℚ
deriving DecidableEq

/-- The consensus engine state (consensus.py `ConsensusEngine.__init__`):
a constructor-supplied threshold and the loaded agent roster. -/
structure ConsensusEngine where
  threshold : ℚ
  agents : List Agent
deriving DecidableEq

/-- Known merchants of `simulate_vote` (consensus.py line 87). -/
def knownMerchants : List String := ["amazon", "netflix", "stripe", "uber", "github"]

/-- Per-agent decision rules of `simulate_vote` (consensus.py lines 94-104):
role selected by substring of the agent id. -/
def agentDecision (agent_id : String) (amount : ℚ) (merchant : String) : String :=
  if strContains agent_id "finance" then
    if amount ≤ 10000 then "approve" else "reject"
  else if strContains agent_id "compliance" then
    if knownMerchants.contains (lowerStr merchant) then "approve" else "review"
  else if strContains agent_id "audit" then
    if 500 < amount then "review" else "approve"
  else "approve"

/-- The human-readable justification string attached to each vote
(consensus.py line 109). -/
def voteReason (amount : ℚ) (merchant : String) : String :=
  "Evaluated amount $" ++ fmt2 amount ++ " for merchant " ++ merchant

/-- The vote list built by `simulate_vote` (consensus.py lines 90-110). -/
def mkVotes (agents : List Agent) (amount : ℚ) (merchant : String) : List Vote :=
  agents.map fun a =>
    { agent_id := a.id, vote := agentDecision a.id amount merchant
      reason := voteReason amount merchant }

/-- The risk-tiered required approval threshold (consensus.py lines 113-118). -/
def tierThreshold (amount : ℚ) : ℚ :=
  if amount ≤ 100 then 0 else if amount ≤ 1000 then 67/100 else 80/100

/-- Approval rate of a vote list (consensus.py lines 121-123): review and
reject both count as non-approval; an empty vote list yields rate 0. -/
def approvalRate (votes : List Vote) : ℚ :=
  if 0 < votes.length then
    ((votes.filter fun v => v.vote == "approve").length : ℚ) / (votes.length : ℚ)
  else 0

/-- The final status of a vote (consensus.py lines 127-128): the rate is
rounded to 2 decimals, then compared against the tier threshold. -/
def voteStatus (votes : List Vote) (amount : ℚ) : String :=
  if tierThreshold amount ≤ roundTo2 (approvalRate votes) then "approved" else "rejected"

/-- The derived transaction id (consensus.py lines 131-132). -/
def txId (merchant : String) (amount : ℚ) (nvotes : ℕ) : String :=
  "tx_" ++ pad8 (strHashN (merchant ++ "_" ++ toString amount ++ "_" ++ toString nvotes).data)

/-- `ConsensusEngine.simulate_vote` (consensus.py lines 77-140).  Note that
the body reads `engine.agents` but never `engine.threshold`. -/
def simulate_vote (engine : ConsensusEngine) (amount : ℚ) (merchant : String) :
    ConsensusResult :=
  { transaction_id := txId merchant amount (mkVotes engine.agents amount merchant).length
    status := voteStatus (mkVotes engine.agents amount merchant) amount
    votes := mkVotes engine.agents amount merchant
    approval_rate := roundTo2 (approvalRate (mkVotes engine.agents amount merchant))
    required_threshold := tierThreshold amount }

/-- Weighted sums (Σ amountᵢ·w·decayⁱ, Σ w·decayⁱ) over a most-recent-first
history, modelling the accumulation loops of `get_exponential_baseline` and
`_evaluate_agent_integrity` (main.py 347-353 and 431-436). -/
def ewmaSums (decay w : ℚ) : List ℚ → ℚ × ℚ
  | [] => (0, 0)
  | a :: rest =>
    let s := ewmaSums decay (w * decay) rest
    (a * w + s.1, w + s.2)

/-- Return value of the baseline tool (main.py `get_exponential_baseline`). -/
structure BaselineResult where
  ewma : ℚ
  sample_count : ℕ
deriving DecidableEq

/-- `get_exponential_baseline` (main.py lines 329-357) as a function of the
agent's most-recent-first approved-amount history and the decay factor; the
returned ewma is rounded to 2 decimals. -/
def get_exponential_baseline (amounts : List ℚ) (decay : ℚ) : BaselineResult :=
  if amounts = [] then ⟨0, 0⟩
  else
    { ewma := roundTo2 (if 0 < (ewmaSums decay 1 amounts).2 then
        (ewmaSums decay 1 amounts).1 / (ewmaSums decay 1 amounts).2 else 0)
      sample_count := amounts.length }

/-- The adaptive baseline of `_evaluate_agent_integrity` (main.py 426-437):
an empty history yields the current amount itself; otherwise the EWMA with
decay 0.9 (division unguarded, as in the source). -/
def integrityBaseline (historical_amounts : List ℚ) (current_vote_amount : ℚ) : ℚ :=
  if historical_amounts = [] then current_vote_amount
  else (ewmaSums (9/10) 1 historical_amounts).1 / (ewmaSums (9/10) 1 historical_amounts).2

/-- Action/confidence pair returned by the integrity evaluator. -/
structure IntegrityResult where
  action : String
  confidence : String
deriving DecidableEq

/-- The behavioral-anomaly flag (main.py line 440): drift strictly above
half the baseline, and defined false when the baseline is not positive. -/
def anomalyFlag (ewma drift : ℚ) : Bool :=
  if 0 < ewma then decide (1/2 * ewma < drift) else false

/-- The dual-signal decision matrix (main.py lines 446-455). -/
def integrityMatrix (behavioral_anomaly hash_tampered : Bool) : IntegrityResult :=
  if behavioral_anomaly && hash_tampered then ⟨"REVOKE", "HIGH"⟩
  else if behavioral_anomaly then ⟨"HOLD_ALERT", "MEDIUM"⟩
  else if hash_tampered then ⟨"IGNORE", "LOW"⟩
  else ⟨"APPROVE", "HIGH"⟩

/-- `_evaluate_agent_integrity` (main.py lines 418-455) as a function of the
agent's recent approved-amount history (the store read), the current
transaction amount, and the boolean tamper signal. -/
def evaluate_agent_integrity (historical_amounts : List ℚ) (current_vote_amount : ℚ)
    (hash_tampered : Bool) : IntegrityResult :=
  integrityMatrix
    (anomalyFlag (integrityBaseline historical_amounts current_vote_amount)
      |current_vote_amount - integrityBaseline historical_amounts current_vote_amount|)
    hash_tampered

/-- One row of the `revoked_agents` table (database.py); `agent_id` is the
primary key, the revoked-at timestamp is not modelled (no claim reads it). -/
structure RevRecord where
  agent_id : String
  reason : String
deriving DecidableEq

/-- The `revoked_agents` table as a list of rows. -/
abbrev RevTable := List RevRecord

/-- `DatabaseManager.revoke_agent` (database.py lines 185-197):
`INSERT OR REPLACE` keyed on `agent_id` — the existing row for the id, if
any, is replaced by the new one. -/
def revoke_agent (table : RevTable) (aid reason : String) : RevTable :=
  ⟨aid, reason⟩ :: table.filter fun r => r.agent_id != aid

/-- `DatabaseManager.reinstate_agent` (database.py lines 199-206):
`DELETE ... WHERE agent_id = ?`. -/
def reinstate_agent (table : RevTable) (aid : String) : RevTable :=
  table.filter fun r => r.agent_id != aid

/-- `DatabaseManager.is_agent_revoked` (database.py lines 208-219). -/
def is_agent_revoked (table : RevTable) (aid : String) : Bool :=
  table.any fun r => r.agent_id == aid

/-- The `reinstate_agent` tool (main.py lines 575-589): checks revocation
status before touching the store, and reports either way without error. -/
def reinstate_agent_tool (table : RevTable) (aid : String) : RevTable × String :=
  if is_agent_revoked table aid then
    (reinstate_agent table aid, "Agent " ++ aid ++ " has been successfully reinstated.")
  else
    (table, "Agent " ++ aid ++ " is not currently revoked.")

/-- The stored reason for a revoked agent (first matching row of the table). -/
def revocationReason (table : RevTable) (aid : String) : Option String :=
  (table.find? fun r => r.agent_id == aid).map fun r => r.reason

/-- A revocation-store operation: the two writes the system performs. -/
inductive RevOp where
  | revoke (aid reason : String)
  | reinstate (aid : String)

/-- Applies one store operation. -/
def applyRevOp (table : RevTable) : RevOp → RevTable
  | .revoke aid reason => revoke_agent table aid reason
  | .reinstate aid => reinstate_agent table aid

/-- Applies a sequence of store operations in order. -/
def applyRevOps (table : RevTable) (ops : List RevOp) : RevTable :=
  ops.foldl applyRevOp table

/-- Number of revocation records held for one agent id. -/
def recordCount (table : RevTable) (aid : String) : ℕ :=
  table.countP fun r => r.agent_id == aid

/-- Environment of one `execute_with_consensus` call (main.py 102-192): the
loaded roster, the current revocation table, the per-agent tamper signal,
and the per-agent recent approved-amount history read from the store.
Since the call fetches `last_known_hash` from the same live hash source it
compares against, `_has_weights_tampered` reduces to membership in the
`_tampered_agents` set, modelled by the `tampered` field. -/
structure Env where
  roster : List Agent
  revoked : RevTable
  tampered : String → Bool
  history : String → List ℚ

/-- Final outcome of `execute_with_consensus`: the auto-approval bypass, the
distinct all-revoked block, or a consensus vote result. -/
inductive TxOutcome where
  | autoApproved
  | blocked
  | voted (result : ConsensusResult)
deriving DecidableEq

/-- One row written by `db.log_transaction` (id not modelled). -/
structure TxRow where
  amount : ℚ
  merchant : String
  status : String
deriving DecidableEq

/-- One row written by `db.log_agent_vote` (tx id and timestamp not modelled). -/
structure VoteRow where
  agent_id : String
  vote : String
  amount : ℚ
deriving DecidableEq

/-- Result of one `execute_with_consensus` call: the outcome, the revocation
table after the call, and the rows written to the transaction and vote logs
during the call. -/
structure ExecResult where
  outcome : TxOutcome
  revokedAfter : RevTable
  txLog : List TxRow
  voteLog : List VoteRow
deriving DecidableEq

/-- One step of the integrity-check loop (main.py lines 135-155): an already
revoked agent is skipped; a REVOKE classification writes a revocation and
excludes the agent; otherwise the agent stays active. -/
def integrityStep (env : Env) (amount : ℚ) (acc : List Agent × RevTable) (agent : Agent) :
    List Agent × RevTable :=
  if is_agent_revoked acc.2 agent.id then acc
  else if (evaluate_agent_integrity (env.history agent.id) amount
      (env.tampered agent.id)).action == "REVOKE" then
    (acc.1, revoke_agent acc.2 agent.id "Compromised: Dual-signal detection triggered")
  else
    (acc.1 ++ [agent], acc.2)

/-- The whole integrity-check loop over the roster, yielding the surviving
active agents and the updated revocation table. -/
def integrityPhase (env : Env) (amount : ℚ) : List Agent × RevTable :=
  env.roster.foldl (integrityStep env amount) ([], env.revoked)

/-- The consensus vote performed over the surviving agents (main.py 160-166):
the engine is constructed with the amount-dependent threshold of line 116
and its roster is overridden to the active subset. -/
def postVote (env : Env) (amount : ℚ) (merchant : String) : ConsensusResult :=
  simulate_vote ⟨if amount ≤ 1000 then 67/100 else 80/100, (integrityPhase env amount).1⟩
    amount merchant

/-- `execute_with_consensus` (main.py lines 102-192): amounts below 100 take
the auto-approval bypass and log an approved transaction without voting; an
emptied active roster yields the distinct blocked outcome with no log
writes; otherwise the vote runs, each vote row and the transaction row are
logged. -/
def execute_with_consensus (env : Env) (amount : ℚ) (merchant : String) : ExecResult :=
  if amount < 100 then
    ⟨.autoApproved, env.revoked, [⟨amount, merchant, "approved"⟩], []⟩
  else if (integrityPhase env amount).1 = [] then
    ⟨.blocked, (integrityPhase env amount).2, [], []⟩
  else
    ⟨.voted (postVote env amount merchant),
     (integrityPhase env amount).2,
     [⟨amount, merchant, (postVote env amount merchant).status⟩],
     (postVote env amount merchant).votes.map fun v => ⟨v.agent_id, v.vote, amount⟩⟩

/-- Known merchants of the fraud-score heuristic (main.py line 207). -/
def fraudKnownMerchants : List String :=
  ["amazon", "netflix", "stripe", "uber", "github", "apple", "google"]

/-- The `typical_spend` lookup with default 50 (main.py lines 208, 220). -/
def typicalSpend (merchant : String) : ℚ :=
  if merchant == "netflix" then 15
  else if merchant == "spotify" then 10
  else if merchant == "amazon" then 50
  else if merchant == "uber" then 25
  else 50

/-- Score/level/reason triple of `_calculate_fraud_score`. -/
structure FraudScore where
  score : ℚ
  level : String
  reason : String
deriving DecidableEq

/-- `_calculate_fraud_score` (main.py lines 195-245). -/
def calculate_fraud_score (amount : ℚ) (merchant : String) (hour : ℤ) : FraudScore :=
  let amount_score := min (amount / 125) 40
  let time_score : ℚ := if 0 ≤ hour ∧ hour ≤ 5 then 30 else 0
  let merchant_score : ℚ := if fraudKnownMerchants.contains (lowerStr merchant) then 0 else 30
  let anomaly_score : ℚ := if typicalSpend (lowerStr merchant) * 20 < amount then 25 else 0
  let total_score := roundTo1 (min (amount_score + time_score + merchant_score + anomaly_score) 100)
  { score := total_score
    level := if total_score < 30 then "low" else if total_score ≤ 60 then "medium" else "high"
    reason :=
      let reasons := (if 10 ≤ amount_score then ["Significant amount"] else []) ++
        (if 0 < time_score then ["Suspicious hour detected"] else []) ++
        (if 0 < merchant_score then ["Unverified merchant"] else []) ++
        (if 0 < anomaly_score then ["Spend Anomaly for " ++ merchant] else [])
      if reasons = [] then "Consistent with typical patterns"
      else String.intercalate " + " reasons }

/-- Structured result of the `score_payment_risk` tool. -/
inductive RiskReport where
  | failure (msg : String)
  | report (score : FraudScore) (recommendation : String)
deriving DecidableEq

/-- `score_payment_risk` (main.py lines 269-300): validation first, then the
fraud score and a recommendation; the tool performs no state mutation. -/
def score_payment_risk (amount : ℚ) (merchant : String) (hour : ℤ) : RiskReport :=
  if strip merchant == "" then .failure "Error: Merchant name required"
  else if amount ≤ 0 then .failure "Error: Amount must be positive"
  else if ¬(0 ≤ hour ∧ hour ≤ 23) then .failure "Error: Hour must be UTC (0-23)"
  else
    .report (calculate_fraud_score amount (strip merchant) hour)
      (if 60 < (calculate_fraud_score amount (strip merchant) hour).score then "Block"
       else if 30 ≤ (calculate_fraud_score amount (strip merchant) hour).score then "Review"
       else "Auto-approve")

/-- One row of the `mandates` table (database.py `create_mandate`). -/
structure Mandate where
  mandate_id : String
  card_number : String
  amount : ℚ
  merchant : String
deriving DecidableEq

/-- Outcome of the `create_merchant_locked_card` tool. -/
inductive CardOutcome where
  | failure (msg : String)
  | blockedHighRisk
  | manualReview
  | created
deriving DecidableEq

/-- `create_merchant_locked_card` (main.py lines 27-69), parameterized by the
ambient clock hour and the random card/mandate numbers; returns the outcome
together with the mandates persisted by the call. -/
def create_merchant_locked_card (hour : ℤ) (cardSuffix mandateNum : ℕ)
    (merchant : String) (amount : ℚ) : CardOutcome × List Mandate :=
  if strip merchant == "" then (.failure "Error: Merchant name required", [])
  else if amount ≤ 0 then (.failure "Error: Amount must be positive", [])
  else if 70 < (calculate_fraud_score amount (strip merchant) hour).score then
    (.blockedHighRisk, [])
  else if 30 ≤ (calculate_fraud_score amount (strip merchant) hour).score then
    (.manualReview, [])
  else
    (.created, [⟨"mandate_" ++ toString mandateNum,
      "4000-00" ++ pad4 cardSuffix ++ "-0000-0000", amount, merchant⟩])

/-! ### Helper lemmas -/

theorem roundTo2_zero : roundTo2 0 = 0 := by
  simp [roundTo2]

theorem roundTo2_intCast (n : ℤ) : roundTo2 ((n : ℚ) / 100) = (n : ℚ) / 100 := by
  have h : (100 : ℚ) * ((n : ℚ) / 100) = (n : ℚ) := by
    field_simp
  rw [roundTo2, h, round_intCast]

theorem roundTo2_tier (amount : ℚ) : roundTo2 (tierThreshold amount) = tierThreshold amount := by
  unfold tierThreshold
  split
  · exact roundTo2_zero
  · split
    · simpa using roundTo2_intCast 67
    · simpa using roundTo2_intCast 80

theorem roundTo2_nonneg {q : ℚ} (h : 0 ≤ q) : 0 ≤ roundTo2 q := by
  unfold roundTo2
  have h1 : (0 : ℤ) ≤ round (100 * q) := by
    rw [round_eq]
    refine Int.le_floor.mpr ?_
    push_cast
    linarith
  have h2 : (0 : ℚ) ≤ (round (100 * q) : ℚ) := by exact_mod_cast h1
  positivity

theorem roundTo2_two_thirds : roundTo2 (2 / 3) = 67 / 100 := by
  have h : round ((100 : ℚ) * (2 / 3)) = 67 := by
    rw [round_eq]
    refine Int.floor_eq_iff.mpr ?_
    constructor <;> norm_num
  rw [roundTo2, h]
  norm_num

theorem approvalRate_nonneg (votes : List Vote) : 0 ≤ approvalRate votes := by
  unfold approvalRate
  split
  · positivity
  · exact le_refl 0

theorem simulate_vote_status_at_100 (engine : ConsensusEngine) (merchant : String) :
    (simulate_vote engine 100 merchant).status = "approved" := by
  show voteStatus (mkVotes engine.agents 100 merchant) 100 = "approved"
  unfold voteStatus
  rw [if_pos]
  have ht : tierThreshold 100 = 0 := by norm_num [tierThreshold]
  rw [ht]
  exact roundTo2_nonneg (approvalRate_nonneg _)

theorem integrityBaseline_single (x amt : ℚ) : integrityBaseline [x] amt = x := by
  simp [integrityBaseline, ewmaSums]

theorem anomalyFlag_zero_drift (amt : ℚ) : anomalyFlag amt |amt - amt| = false := by
  rw [sub_self, abs_zero]
  unfold anomalyFlag
  split
  · rw [decide_eq_false]
    intro hcon
    linarith
  · rfl

theorem eval_empty_history (amt : ℚ) (t : Bool) :
    evaluate_agent_integrity [] amt t =
      (if t then ⟨"IGNORE", "LOW"⟩ else ⟨"APPROVE", "HIGH"⟩) := by
  unfold evaluate_agent_integrity
  rw [show integrityBaseline [] amt = amt from by simp [integrityBaseline],
    anomalyFlag_zero_drift]
  cases t <;> rfl

theorem anomalyFlag_at_100 (drift : ℚ) : anomalyFlag 100 drift = decide (50 < drift) := by
  unfold anomalyFlag
  rw [if_pos (by norm_num : (0 : ℚ) < 100), decide_eq_decide]
  constructor <;> intro h <;> linarith

/-! ### Claims -/

/-- C1: the Integrity Evaluator is a pure function of (baseline, current
amount, tampered flag); with baseline 100 the behavioral anomaly flag is
drift > 0.5·baseline, and the 2×2 matrix gives REVOKE/HIGH at (200, true),
HOLD_ALERT/MEDIUM at (200, false), IGNORE/LOW at (120, true) and
APPROVE/HIGH at (120, false). -/
theorem C1_integrity_matrix :
    (∀ (h1 h2 : List ℚ) (amt : ℚ) (t : Bool),
      integrityBaseline h1 amt = integrityBaseline h2 amt →
      evaluate_agent_integrity h1 amt t = evaluate_agent_integrity h2 amt t) ∧
    (∀ ewma drift : ℚ, 0 < ewma → anomalyFlag ewma drift = decide (1 / 2 * ewma < drift)) ∧
    (∀ ewma drift : ℚ, ewma ≤ 0 → anomalyFlag ewma drift = false) ∧
    (∀ drift : ℚ, anomalyFlag 100 drift = decide (50 < drift)) ∧
    evaluate_agent_integrity [100] 200 true = ⟨"REVOKE", "HIGH"⟩ ∧
    evaluate_agent_integrity [100] 200 false = ⟨"HOLD_ALERT", "MEDIUM"⟩ ∧
    evaluate_agent_integrity [100] 120 true = ⟨"IGNORE", "LOW"⟩ ∧
    evaluate_agent_integrity [100] 120 false = ⟨"APPROVE", "HIGH"⟩ := by
  refine ⟨?_, ?_, ?_, anomalyFlag_at_100, ?_, ?_, ?_, ?_⟩
  · intro h1 h2 amt t h
    unfold evaluate_agent_integrity
    rw [h]
  · intro ewma drift h
    unfold anomalyFlag
    rw [if_pos h]
  · intro ewma drift h
    unfold anomalyFlag
    rw [if_neg (not_lt.mpr h)]
  all_goals
    unfold evaluate_agent_integrity
    rw [integrityBaseline_single, anomalyFlag_at_100]
    norm_num [integrityMatrix]

/-- Witness for C1: the purity conjunct applied at history [100], amount 200,
tampered, and the anomaly characterization applied at baseline 2, drift 3. -/
theorem C1_integrity_matrix_witness :
    evaluate_agent_integrity [100] 200 true = evaluate_agent_integrity [100] 200 true ∧
    anomalyFlag 2 3 = decide ((1 : ℚ) / 2 * 2 < 3) :=
  ⟨C1_integrity_matrix.1 [100] [100] 200 true rfl,
   C1_integrity_matrix.2.1 2 3 (by norm_num)⟩

/-- C9: with an empty approved-amount history the Integrity Evaluator sets
the baseline to the current amount, the anomaly flag is false, and the
action is IGNORE when tampered and APPROVE otherwise — never REVOKE and
never HOLD_ALERT. -/
theorem C9_first_transaction :
    ∀ (amt : ℚ) (t : Bool),
      integrityBaseline [] amt = amt ∧
      evaluate_agent_integrity [] amt t =
        (if t then ⟨"IGNORE", "LOW"⟩ else ⟨"APPROVE", "HIGH"⟩) ∧
      (evaluate_agent_integrity [] amt t).action ≠ "REVOKE" ∧
      (evaluate_agent_integrity [] amt t).action ≠ "HOLD_ALERT" := by
  intro amt t
  have hbase : integrityBaseline [] amt = amt := by simp [integrityBaseline]
  refine ⟨hbase, eval_empty_history amt t, ?_, ?_⟩ <;>
    rw [eval_empty_history amt t] <;> cases t <;> decide

/-- C10: the constructor threshold of the Consensus Engine never influences
the vote: two engines over the same roster give identical results, and the
applied threshold is recomputed from the amount tier alone. -/
theorem C10_constructor_threshold_unused :
    (∀ (t1 t2 : ℚ) (agents : List Agent) (amount : ℚ) (merchant : String),
      simulate_vote ⟨t1, agents⟩ amount merchant = simulate_vote ⟨t2, agents⟩ amount merchant) ∧
    (∀ (engine : ConsensusEngine) (amount : ℚ) (merchant : String),
      (simulate_vote engine amount merchant).required_threshold = tierThreshold amount) :=
  ⟨fun _ _ _ _ _ => rfl, fun _ _ _ => rfl⟩

/-- C3 counterexample: at amount exactly 100 the engine assigns required
threshold 0 (the auto-approve tier), not the 67% tier the claim states. -/
theorem C3_tier_at_100_counterexample :
    (simulate_vote ⟨67 / 100, [⟨"finance_agent_001"⟩]⟩ 100 "amazon").required_threshold = 0 ∧
    (0 : ℚ) ≠ 67 / 100 := by
  constructor
  · norm_num [simulate_vote, tierThreshold]
  · norm_num

/-- C3 amended: the tiers are strict with amount 100.00 in the 0% auto-approve
tier: 100.00 → 0%, 100.01 → 67%, 1000.00 → 67%, 1000.01 → 80%, for every
vote simulation. -/
theorem C3_amount_tiers :
    ∀ (engine : ConsensusEngine) (merchant : String),
      (simulate_vote engine 100 merchant).required_threshold = 0 ∧
      (simulate_vote engine (10001 / 100) merchant).required_threshold = 67 / 100 ∧
      (simulate_vote engine 1000 merchant).required_threshold = 67 / 100 ∧
      (simulate_vote engine (100001 / 100) merchant).required_threshold = 80 / 100 := by
  intro engine merchant
  refine ⟨?_, ?_, ?_, ?_⟩ <;> norm_num [simulate_vote, tierThreshold]

/-- C2 counterexample: called directly on an empty roster the engine does not
refuse to vote — at amount 50 it returns a vacuous approved outcome with no
votes and approval rate 0. -/
theorem C2_engine_vacuous_counterexample :
    (simulate_vote ⟨67 / 100, []⟩ 50 "amazon").status = "approved" ∧
    (simulate_vote ⟨67 / 100, []⟩ 50 "amazon").votes = [] ∧
    (simulate_vote ⟨67 / 100, []⟩ 50 "amazon").approval_rate = 0 := by
  refine ⟨?_, rfl, ?_⟩
  · show voteStatus (mkVotes [] 50 "amazon") 50 = "approved"
    norm_num [voteStatus, mkVotes, approvalRate, tierThreshold, roundTo2]
  · show roundTo2 (approvalRate (mkVotes [] 50 "amazon")) = 0
    norm_num [mkVotes, approvalRate, roundTo2]

theorem ewmaSums_spec (d : ℚ) (xs : List ℚ) : ∀ w : ℚ,
    ewmaSums d w xs =
      (Finset.sum (Finset.range xs.length) (fun i => xs.getD i 0 * (w * d ^ i)),
       Finset.sum (Finset.range xs.length) (fun i => w * d ^ i)) := by
  induction xs with
  | nil => intro w; simp [ewmaSums]
  | cons a r ih =>
    intro w
    simp only [ewmaSums, ih (w * d), List.length_cons]
    rw [Prod.mk.injEq]
    constructor
    · rw [Finset.sum_range_succ']
      simp only [List.getD_cons_succ, List.getD_cons_zero, pow_zero, mul_one]
      rw [add_comm]
      congr 1
      refine Finset.sum_congr rfl fun i _ => ?_
      ring
    · rw [Finset.sum_range_succ']
      simp only [pow_zero, mul_one]
      rw [add_comm]
      congr 1
      refine Finset.sum_congr rfl fun i _ => ?_
      ring

/-- C4: rounding both the rate and the tier threshold to 2 decimals before
comparing coincides with the engine's decision (the tier thresholds are
exact 2-decimal values, fixed by the rounding), and every 3-agent roster
with exactly 2 approvals in the 67% tier yields rate 0.67 and status
approved. -/
theorem C4_two_of_three_rounding :
    (∀ (rate amount : ℚ),
      (tierThreshold amount ≤ roundTo2 rate ↔
        roundTo2 (tierThreshold amount) ≤ roundTo2 rate)) ∧
    (∀ (engine : ConsensusEngine) (amount : ℚ) (merchant : String),
      engine.agents.length = 3 →
      ((mkVotes engine.agents amount merchant).filter fun v => v.vote == "approve").length = 2 →
      100 < amount → amount ≤ 1000 →
      (simulate_vote engine amount merchant).status = "approved" ∧
      (simulate_vote engine amount merchant).approval_rate = 67 / 100 ∧
      (simulate_vote engine amount merchant).required_threshold = 67 / 100) := by
  constructor
  · intro rate amount
    rw [roundTo2_tier]
  · intro engine amount merchant h3 h2 h100 h1000
    have hlen : (mkVotes engine.agents amount merchant).length = 3 := by
      simp [mkVotes, h3]
    have hrate : approvalRate (mkVotes engine.agents amount merchant) = 2 / 3 := by
      unfold approvalRate
      rw [h2, hlen]
      norm_num
    have htier : tierThreshold amount = 67 / 100 := by
      unfold tierThreshold
      rw [if_neg (by linarith), if_pos h1000]
    refine ⟨?_, ?_, ?_⟩
    · show voteStatus (mkVotes engine.agents amount merchant) amount = "approved"
      unfold voteStatus
      rw [hrate, htier, roundTo2_two_thirds, if_pos (le_refl _)]
    · show roundTo2 (approvalRate (mkVotes engine.agents amount merchant)) = 67 / 100
      rw [hrate, roundTo2_two_thirds]
    · show tierThreshold amount = 67 / 100
      exact htier

/-- A 3-agent roster for the C4 witness: on amount 600 at merchant amazon the
finance and compliance agents approve and the audit agent reviews. -/
def rosterW : List Agent :=
  [⟨"finance_agent_001"⟩, ⟨"compliance_agent_001"⟩, ⟨"audit_agent_001"⟩]

/-- Witness for C4: the 2-of-3 roster at amount 600, merchant amazon. -/
theorem C4_two_of_three_rounding_witness :
    (simulate_vote ⟨67 / 100, rosterW⟩ 600 "amazon").status = "approved" ∧
    (simulate_vote ⟨67 / 100, rosterW⟩ 600 "amazon").approval_rate = 67 / 100 :=
  ⟨(C4_two_of_three_rounding.2 ⟨67 / 100, rosterW⟩ 600 "amazon" rfl
      (by decide) (by norm_num) (by norm_num)).1,
   (C4_two_of_three_rounding.2 ⟨67 / 100, rosterW⟩ 600 "amazon" rfl
      (by decide) (by norm_num) (by norm_num)).2.1⟩

/-- C5 counterexample: the EWMA of [100, 90, 80] with decay 0.9 equals
24580/271 ≈ 90.70, which is not within 0.5 of the claim's 91.67; the tool
returns it rounded as 90.7. -/
theorem C5_history_value_counterexample :
    (ewmaSums (9 / 10) 1 [100, 90, 80]).1 / (ewmaSums (9 / 10) 1 [100, 90, 80]).2
      = 24580 / 271 ∧
    ¬ |(24580 : ℚ) / 271 - 9167 / 100| ≤ 1 / 2 ∧
    (get_exponential_baseline [100, 90, 80] (9 / 10)).ewma = 907 / 10 := by
  have hsum : ewmaSums (9 / 10) 1 [100, 90, 80] = (1229 / 5, 271 / 100) := by
    norm_num [ewmaSums]
  have hval : (ewmaSums (9 / 10) 1 [100, 90, 80]).1 / (ewmaSums (9 / 10) 1 [100, 90, 80]).2
      = 24580 / 271 := by
    rw [hsum]
    norm_num
  have hround : roundTo2 ((24580 : ℚ) / 271) = 907 / 10 := by
    have h : round ((100 : ℚ) * (24580 / 271)) = 9070 := by
      rw [round_eq]
      refine Int.floor_eq_iff.mpr ?_
      constructor <;> norm_num
    rw [roundTo2, h]
    norm_num
  refine ⟨hval, by rw [abs_sub_comm, abs_of_nonneg (by norm_num)]; norm_num, ?_⟩
  unfold get_exponential_baseline
  rw [if_neg (by simp)]
  show roundTo2 _ = _
  rw [hsum]
  rw [if_pos (by norm_num : (0 : ℚ) < 271 / 100)]
  have hq : (1229 : ℚ) / 5 / (271 / 100) = 24580 / 271 := by norm_num
  rw [hq, hround]

theorem roundTo2_one_hundred : roundTo2 100 = 100 := by
  have h := roundTo2_intCast 10000
  norm_num at h
  exact h

/-- C5 amended: the estimator weights the i-th most recent sample by the
i-th power of the decay; a single-sample history [100] yields exactly 100
for every decay; for [100, 90, 80] with decay 0.9 the ewma equals
(100 + 90·0.9 + 80·0.81)/(1 + 0.9 + 0.81) = 24580/271 ≈ 90.70, returned
rounded as 90.7. -/
theorem C5_baseline_estimator :
    (∀ decay : ℚ, get_exponential_baseline [100] decay = ⟨100, 1⟩) ∧
    get_exponential_baseline [100, 90, 80] (9 / 10) = ⟨907 / 10, 3⟩ ∧
    (ewmaSums (9 / 10) 1 [100, 90, 80]).1 / (ewmaSums (9 / 10) 1 [100, 90, 80]).2
      = (100 + 90 * (9 / 10) + 80 * (81 / 100)) / (1 + 9 / 10 + 81 / 100) ∧
    ((100 : ℚ) + 90 * (9 / 10) + 80 * (81 / 100)) / (1 + 9 / 10 + 81 / 100) = 24580 / 271 ∧
    (∀ (d : ℚ) (xs : List ℚ),
      (ewmaSums d 1 xs).1
        = Finset.sum (Finset.range xs.length) (fun i => xs.getD i 0 * d ^ i) ∧
      (ewmaSums d 1 xs).2 = Finset.sum (Finset.range xs.length) (fun i => d ^ i)) := by
  have hsum : ewmaSums (9 / 10) 1 [100, 90, 80] = (1229 / 5, 271 / 100) := by
    norm_num [ewmaSums]
  have hround : roundTo2 ((24580 : ℚ) / 271) = 907 / 10 := by
    have h : round ((100 : ℚ) * (24580 / 271)) = 9070 := by
      rw [round_eq]
      refine Int.floor_eq_iff.mpr ?_
      constructor <;> norm_num
    rw [roundTo2, h]
    norm_num
  refine ⟨?_, ?_, ?_, by norm_num, ?_⟩
  · intro d
    unfold get_exponential_baseline
    rw [if_neg (by simp)]
    have h1 : ewmaSums d 1 [100] = (100, 1) := by norm_num [ewmaSums]
    rw [h1]
    rw [if_pos (by norm_num : (0 : ℚ) < 1)]
    norm_num [roundTo2_one_hundred]
  · unfold get_exponential_baseline
    rw [if_neg (by simp), hsum]
    rw [if_pos (by norm_num : (0 : ℚ) < 271 / 100)]
    have hq : (1229 : ℚ) / 5 / (271 / 100) = 24580 / 271 := by norm_num
    simp [hq, hround]
  · rw [hsum]
    norm_num
  · intro d xs
    have h := ewmaSums_spec d xs 1
    constructor <;> rw [h] <;> simp [one_mul]

theorem recordCount_revoke_self (t : RevTable) (aid reason : String) :
    recordCount (revoke_agent t aid reason) aid = 1 := by
  unfold recordCount revoke_agent
  rw [List.countP_cons_of_pos _ _ (by simp)]
  have h : ((t.filter fun r => r.agent_id != aid).countP fun r => r.agent_id == aid) = 0 := by
    rw [List.countP_filter]
    refine List.countP_eq_zero.mpr fun r _ => ?_
    simp [bne]
  rw [h]

theorem recordCount_revoke_other (t : RevTable) (aid reason a : String) (h : a ≠ aid) :
    recordCount (revoke_agent t aid reason) a ≤ recordCount t a := by
  unfold recordCount revoke_agent
  rw [List.countP_cons_of_neg]
  · exact (List.filter_sublist t).countP_le _
  · simp [beq_iff_eq]
    exact Ne.symm h

theorem recordCount_reinstate_le (t : RevTable) (aid a : String) :
    recordCount (reinstate_agent t aid) a ≤ recordCount t a := by
  unfold recordCount reinstate_agent
  exact (List.filter_sublist t).countP_le _

theorem recordCount_applyRevOps (ops : List RevOp) :
    ∀ t : RevTable, (∀ a, recordCount t a ≤ 1) →
      ∀ a, recordCount (applyRevOps t ops) a ≤ 1 := by
  induction ops with
  | nil => intro t ht a; exact ht a
  | cons op rest ih =>
    intro t ht a
    have hstep : ∀ b, recordCount (applyRevOp t op) b ≤ 1 := by
      intro b
      cases op with
      | revoke aid reason =>
        by_cases hb : b = aid
        · subst hb
          exact le_of_eq (recordCount_revoke_self t b reason)
        · exact le_trans (recordCount_revoke_other t aid reason b hb) (ht b)
      | reinstate aid => exact le_trans (recordCount_reinstate_le t aid b) (ht b)
    exact ih (applyRevOp t op) hstep a

/-- C7: reinstating a non-revoked agent is an error-free no-op (both at the
store and at the tool layer); revoking an already-revoked agent replaces
the stored reason without growing the table; and after any sequence of
revoke/reinstate operations at most one record per agent id exists. -/
theorem C7_revocation_idempotent :
    (∀ (t : RevTable) (aid : String),
      is_agent_revoked t aid = false →
      reinstate_agent t aid = t ∧
      reinstate_agent_tool t aid = (t, "Agent " ++ aid ++ " is not currently revoked.")) ∧
    (∀ (t : RevTable) (aid r1 r2 : String),
      (revoke_agent (revoke_agent t aid r1) aid r2).length = (revoke_agent t aid r1).length ∧
      revocationReason (revoke_agent (revoke_agent t aid r1) aid r2) aid = some r2 ∧
      recordCount (revoke_agent (revoke_agent t aid r1) aid r2) aid = 1) ∧
    (∀ (ops : List RevOp) (aid : String), recordCount (applyRevOps [] ops) aid ≤ 1) := by
  refine ⟨?_, ?_, ?_⟩
  · intro t aid h
    have hall : ∀ r ∈ t, (r.agent_id != aid) = true := by
      intro r hr
      have hne := List.any_eq_false.mp h r hr
      simpa [bne] using hne
    have hfix : reinstate_agent t aid = t := List.filter_eq_self.mpr hall
    refine ⟨hfix, ?_⟩
    unfold reinstate_agent_tool
    rw [h]
    simp
  · intro t aid r1 r2
    have hfilter : ((revoke_agent t aid r1).filter fun r => r.agent_id != aid)
        = t.filter fun r => r.agent_id != aid := by
      unfold revoke_agent
      rw [List.filter_cons]
      rw [if_neg (by simp)]
      refine List.filter_eq_self.mpr fun r hr => ?_
      have hmem := List.of_mem_filter hr
      exact hmem
    refine ⟨?_, ?_, recordCount_revoke_self _ aid r2⟩
    · show ((⟨aid, r2⟩ : RevRecord) :: ((revoke_agent t aid r1).filter
        fun r => r.agent_id != aid)).length = (revoke_agent t aid r1).length
      rw [hfilter]
      unfold revoke_agent
      simp
    · show revocationReason ((⟨aid, r2⟩ : RevRecord) :: ((revoke_agent t aid r1).filter
        fun r => r.agent_id != aid)) aid = some r2
      unfold revocationReason
      rw [List.find?_cons_of_pos _ (by simp)]
      rfl
  · intro ops aid
    exact recordCount_applyRevOps ops [] (fun a => by simp [recordCount]) aid

/-- Witness for C7: the no-op reinstatement, the overwriting double revoke,
and the one-record invariant, each at concrete inputs. -/
theorem C7_revocation_idempotent_witness :
    reinstate_agent_tool [⟨"agent_a", "x"⟩] "agent_b"
      = ([⟨"agent_a", "x"⟩], "Agent " ++ "agent_b" ++ " is not currently revoked.") ∧
    (revoke_agent (revoke_agent [] "agent_a" "r1") "agent_a" "r2").length
      = (revoke_agent [] "agent_a" "r1").length ∧
    recordCount (applyRevOps [] [.revoke "agent_a" "r1", .revoke "agent_a" "r2"]) "agent_a"
      ≤ 1 :=
  ⟨(C7_revocation_idempotent.1 [⟨"agent_a", "x"⟩] "agent_b" (by decide)).2,
   (C7_revocation_idempotent.2.1 [] "agent_a" "r1" "r2").1,
   C7_revocation_idempotent.2.2 [.revoke "agent_a" "r1", .revoke "agent_a" "r2"] "agent_a"⟩

theorem integrityPhase_all_revoked (env : Env) (amount : ℚ)
    (h : ∀ a ∈ env.roster, is_agent_revoked env.revoked a.id = true) :
    integrityPhase env amount = ([], env.revoked) := by
  suffices hgen : ∀ (roster : List Agent) (acc : List Agent × RevTable),
      (∀ a ∈ roster, is_agent_revoked acc.2 a.id = true) →
      roster.foldl (integrityStep env amount) acc = acc by
    exact hgen env.roster ([], env.revoked) h
  intro roster
  induction roster with
  | nil => intro acc _; rfl
  | cons a rest ih =>
    intro acc hacc
    rw [List.foldl_cons]
    have hstep : integrityStep env amount acc a = acc := by
      unfold integrityStep
      rw [if_pos (hacc a (List.mem_cons_self a rest))]
    rw [hstep]
    exact ih acc fun b hb => hacc b (List.mem_cons_of_mem a hb)

/-- C2 amended: the distinct blocked/no-quorum outcome is produced by the
orchestrator `execute_with_consensus` for amounts at or above 100: when all
roster agents are already revoked (or, generally, when the integrity phase
leaves no active agent) the call returns the blocked outcome with no vote
and no log writes, instead of invoking the engine; the engine alone, called
on an empty roster, returns a vacuous result. -/
theorem C2_no_quorum_blocked :
    (∀ (env : Env) (amount : ℚ) (merchant : String),
      100 ≤ amount →
      (∀ a ∈ env.roster, is_agent_revoked env.revoked a.id = true) →
      execute_with_consensus env amount merchant = ⟨.blocked, env.revoked, [], []⟩) ∧
    (∀ (env : Env) (amount : ℚ) (merchant : String),
      100 ≤ amount →
      (integrityPhase env amount).1 = [] →
      execute_with_consensus env amount merchant
        = ⟨.blocked, (integrityPhase env amount).2, [], []⟩) := by
  constructor
  · intro env amount merchant h100 hrev
    have hp := integrityPhase_all_revoked env amount hrev
    unfold execute_with_consensus
    rw [if_neg (not_lt.mpr h100), hp, if_pos rfl]
  · intro env amount merchant h100 hempty
    unfold execute_with_consensus
    rw [if_neg (not_lt.mpr h100), if_pos hempty]

/-- Roster and store state for the C2 witness: a single agent, already
revoked. -/
def envC2 : Env :=
  ⟨[⟨"finance_agent_001"⟩], [⟨"finance_agent_001", "manual"⟩], fun _ => false, fun _ => []⟩

/-- Witness for C2: with the lone agent already revoked, amount 200 yields
the blocked outcome and writes nothing. -/
theorem C2_no_quorum_blocked_witness :
    execute_with_consensus envC2 200 "amazon" = ⟨.blocked, envC2.revoked, [], []⟩ :=
  C2_no_quorum_blocked.1 envC2 200 "amazon" (by norm_num) (by decide)

/-- Empty-state environment for the C6 counterexample and witness. -/
def envC6 : Env := ⟨[], [], fun _ => false, fun _ => []⟩

/-- C6 counterexample: executing a transaction with amount −5 ≤ 0 is not
rejected — it takes the auto-approval bypass and logs an approved
transaction. -/
theorem C6_validation_gap_counterexample :
    ((-5 : ℚ) ≤ 0) ∧
    execute_with_consensus envC6 (-5) "amazon"
      = ⟨.autoApproved, [], [⟨-5, "amazon", "approved"⟩], []⟩ := by
  refine ⟨by norm_num, ?_⟩
  unfold execute_with_consensus
  rw [if_pos (by norm_num : (-5 : ℚ) < 100)]
  rfl

/-- C6 amended: `create_merchant_locked_card` and `score_payment_risk`
reject blank merchants and non-positive amounts (and `score_payment_risk`
rejects out-of-range hours) before any state mutation, as structured
errors; `execute_with_consensus`, however, performs no amount validation:
any amount ≤ 0 falls into the auto-approval bypass, is logged as an
approved transaction, and produces no votes. -/
theorem C6_validation :
    (∀ (hour : ℤ) (cs mn : ℕ) (merchant : String) (amount : ℚ),
      strip merchant = "" →
      create_merchant_locked_card hour cs mn merchant amount
        = (.failure "Error: Merchant name required", [])) ∧
    (∀ (hour : ℤ) (cs mn : ℕ) (merchant : String) (amount : ℚ),
      strip merchant ≠ "" → amount ≤ 0 →
      create_merchant_locked_card hour cs mn merchant amount
        = (.failure "Error: Amount must be positive", [])) ∧
    (∀ (amount : ℚ) (merchant : String) (hour : ℤ),
      strip merchant ≠ "" → amount ≤ 0 →
      score_payment_risk amount merchant hour = .failure "Error: Amount must be positive") ∧
    (∀ (amount : ℚ) (merchant : String) (hour : ℤ),
      strip merchant ≠ "" → 0 < amount → ¬(0 ≤ hour ∧ hour ≤ 23) →
      score_payment_risk amount merchant hour = .failure "Error: Hour must be UTC (0-23)") ∧
    (∀ (env : Env) (amount : ℚ) (merchant : String),
      amount ≤ 0 →
      execute_with_consensus env amount merchant
        = ⟨.autoApproved, env.revoked, [⟨amount, merchant, "approved"⟩], []⟩) := by
  refine ⟨?_, ?_, ?_, ?_, ?_⟩
  · intro hour cs mn merchant amount h
    unfold create_merchant_locked_card
    rw [h]
    simp
  · intro hour cs mn merchant amount h1 h2
    unfold create_merchant_locked_card
    rw [if_neg (by simp [h1]), if_pos h2]
  · intro amount merchant hour h1 h2
    unfold score_payment_risk
    rw [if_neg (by simp [h1]), if_pos h2]
  · intro amount merchant hour h1 h2 h3
    unfold score_payment_risk
    rw [if_neg (by simp [h1]), if_neg (not_le.mpr h2), if_pos h3]
  · intro env amount merchant h
    unfold execute_with_consensus
    rw [if_pos (lt_of_le_of_lt h (by norm_num))]

/-- Witness for C6: each validation branch and the unvalidated bypass at
concrete inputs. -/
theorem C6_validation_witness :
    create_merchant_locked_card 10 1 2 "   " 50 = (.failure "Error: Merchant name required", []) ∧
    create_merchant_locked_card 10 1 2 "amazon" (-5)
      = (.failure "Error: Amount must be positive", []) ∧
    score_payment_risk (-5) "amazon" 10 = .failure "Error: Amount must be positive" ∧
    score_payment_risk 50 "amazon" 24 = .failure "Error: Hour must be UTC (0-23)" ∧
    execute_with_consensus envC6 (-7) "netflix"
      = ⟨.autoApproved, envC6.revoked, [⟨-7, "netflix", "approved"⟩], []⟩ :=
  ⟨C6_validation.1 10 1 2 "   " 50 (by decide),
   C6_validation.2.1 10 1 2 "amazon" (-5) (by decide) (by norm_num),
   C6_validation.2.2.1 (-5) "amazon" 10 (by decide) (by norm_num),
   C6_validation.2.2.2.1 50 "amazon" 24 (by decide) (by norm_num) (by decide),
   C6_validation.2.2.2.2 envC6 (-7) "netflix" (by norm_num)⟩

/-- C8: at amount exactly 100 the auto-approval bypass is not taken, the
integrity-check and voting path runs, the engine's required threshold is 0,
and whenever at least one agent survives the integrity check the final
status is approved regardless of the surviving agents' votes. -/
theorem C8_amount_exactly_100 :
    (∀ (env : Env) (merchant : String),
      (execute_with_consensus env 100 merchant).outcome ≠ TxOutcome.autoApproved) ∧
    (∀ (engine : ConsensusEngine) (merchant : String),
      engine.agents ≠ [] →
      (simulate_vote engine 100 merchant).status = "approved" ∧
      (simulate_vote engine 100 merchant).required_threshold = 0) ∧
    (∀ (env : Env) (merchant : String),
      (integrityPhase env 100).1 ≠ [] →
      (execute_with_consensus env 100 merchant).outcome = .voted (postVote env 100 merchant) ∧
      (postVote env 100 merchant).status = "approved") := by
  refine ⟨?_, ?_, ?_⟩
  · intro env merchant
    unfold execute_with_consensus
    rw [if_neg (lt_irrefl (100 : ℚ))]
    split <;> simp
  · intro engine merchant _
    exact ⟨simulate_vote_status_at_100 engine merchant,
      by norm_num [simulate_vote, tierThreshold]⟩
  · intro env merchant h
    constructor
    · unfold execute_with_consensus
      rw [if_neg (lt_irrefl (100 : ℚ)), if_neg h]
    · exact simulate_vote_status_at_100 _ merchant

/-- Environment for the C8 witness: one clean agent, nothing revoked, no
tampering, empty history. -/
def envC8 : Env := ⟨[⟨"finance_agent_001"⟩], [], fun _ => false, fun _ => []⟩

theorem envC8_phase : integrityPhase envC8 100 = ([⟨"finance_agent_001"⟩], []) := by
  have heval : evaluate_agent_integrity (envC8.history "finance_agent_001") 100
      (envC8.tampered "finance_agent_001") = ⟨"APPROVE", "HIGH"⟩ :=
    (eval_empty_history 100 false).trans rfl
  show List.foldl (integrityStep envC8 100) ([], envC8.revoked) envC8.roster = _
  rw [show envC8.roster = [⟨"finance_agent_001"⟩] from rfl, List.foldl_cons, List.foldl_nil]
  unfold integrityStep
  rw [if_neg (by decide), heval, if_neg (by decide)]
  rfl

/-- Witness for C8: with the clean single-agent environment the outcome is
the vote result and its status is approved; the 2-of-3 roster also
witnesses the engine-level conjunct. -/
theorem C8_amount_exactly_100_witness :
    ((execute_with_consensus envC8 100 "amazon").outcome
        = .voted (postVote envC8 100 "amazon") ∧
      (postVote envC8 100 "amazon").status = "approved") ∧
    (simulate_vote ⟨67 / 100, rosterW⟩ 100 "amazon").status = "approved" :=
  ⟨C8_amount_exactly_100.2.2 envC8 "amazon" (by rw [envC8_phase]; simp),
   (C8_amount_exactly_100.2.1 ⟨67 / 100, rosterW⟩ "amazon" (by decide)).1⟩

end PaymentSim
